import Mathlib

/-!
Verification of the s2n-tls Rust benchmarking harness core
(`bindings/rust/bench/src/harness.rs` and `bindings/rust/bench/src/s2n_tls.rs`)
against its natural-language specification.

Modelling conventions:
* A `VecDeque<u8>` behind `Rc<RefCell<...>>` is modelled as a queue identifier
  (`Nat`) together with a heap mapping identifiers to byte lists; `Rc::ptr_eq`
  is equality of identifiers.  Bytes are modelled as `Nat`.
* Fallible Rust code returning `Result` is modelled with `RunResult`, whose
  `panicked` constructor stands for a Rust `panic!` / failed `assert!` /
  `unwrap()` on an error, as distinct from a returned `Err`.
* The `TlsConnection` trait is modelled as a bundled structure of the trait
  methods over an abstract connection-state type.
-/

/-- Outcome of running a piece of Rust code: a returned `Ok` value, a returned
`Err` value, or a `panic!` (including failed `assert!` and `unwrap()`). -/
inductive RunResult (ε α : Type) where
  | ok (val : α)
  | err (e : ε)
  | panicked
deriving DecidableEq, Repr

/-- Error taxonomy of the harness (spec section 7). -/
inductive BenchError where
  | unsupportedParameterCombination
  | handshakeFailed
  | transportExhausted
  | unknownCipherSuite
deriving DecidableEq, Repr

/-- `std::io` error kinds relevant to the harness: the transport only ever
produces `WouldBlock` (`harness.rs` line 302). -/
inductive IoError where
  | wouldBlock
deriving DecidableEq, Repr

/-- Heap of shared byte queues: a queue identifier names one
`Rc<RefCell<VecDeque<u8>>>`; the heap gives its current contents. -/
def Heap : Type := Nat → List Nat

/-- Update one queue of the heap. -/
def heapUpdate (h : Heap) (i : Nat) (q : List Nat) : Heap :=
  fun j => if j = i then q else h j

/-- `ConnectedBuffer` (`harness.rs` lines 254-258): a pair of references to
shared queues, one read from (`recv`) and one written to (`send`).  The
references are modelled by queue identifiers; the queue contents live in the
`Heap`. -/
structure ConnectedBuffer where
  recv : Nat
  send : Nat
deriving DecidableEq, Repr

/-- `impl PartialEq for ConnectedBuffer` (`harness.rs` lines 260-264):
`Rc::ptr_eq(&self.recv, &other.recv) && Rc::ptr_eq(&self.send, &other.send)`,
i.e. identity of the underlying queues, not content equality (contents are in
the heap and are not consulted). -/
def ConnectedBuffer.ptrEq (a b : ConnectedBuffer) : Bool :=
  a.recv == b.recv && a.send == b.send

/-- `ConnectedBuffer::inverse` (`harness.rs` lines 281-286): same two queues
with `recv` and `send` swapped. -/
def ConnectedBuffer.inverse (b : ConnectedBuffer) : ConnectedBuffer :=
  { recv := b.send, send := b.recv }

/-- `impl Read for ConnectedBuffer` (`harness.rs` lines 297-307).  The inner
`VecDeque<u8>` read pops `min destLen (queue length)` bytes from the front and
always succeeds; the wrapper turns a zero-byte read into a `WouldBlock` error
(a zero-byte read leaves the queue unchanged, so the heap is returned as-is in
that branch). -/
def ConnectedBuffer.read (h : Heap) (b : ConnectedBuffer) (destLen : Nat) :
    Heap × Except IoError (List Nat) :=
  let q := h b.recv
  let bytes := q.take destLen
  if bytes.length = 0 then
    (h, .error .wouldBlock)
  else
    (heapUpdate h b.recv (q.drop destLen), .ok bytes)

/-- `impl Write for ConnectedBuffer`, `write` (`harness.rs` lines 310-312):
the inner `VecDeque<u8>` write appends all of `src` and returns its length. -/
def ConnectedBuffer.write (h : Heap) (b : ConnectedBuffer) (src : List Nat) :
    Heap × Except IoError Nat :=
  (heapUpdate h b.send (h b.send ++ src), .ok src.length)

/-- `impl Write for ConnectedBuffer`, `flush` (`harness.rs` lines 313-315):
`Ok(())`, touching nothing. -/
def ConnectedBuffer.flush (h : Heap) (_b : ConnectedBuffer) :
    Heap × Except IoError Unit :=
  (h, .ok ())

/-- `Mode` (`harness.rs` lines 35-39). -/
inductive Mode where
  | client
  | server
deriving DecidableEq, Repr, Fintype

/-- `HandshakeType` (`harness.rs` lines 41-46). -/
inductive HandshakeType where
  | serverAuth
  | mutualAuth
deriving DecidableEq, Repr, Fintype

/-- `CipherSuite` (`harness.rs` lines 50-56). -/
inductive CipherSuite where
  | aes128GcmSha256
  | aes256GcmSha384
deriving DecidableEq, Repr, Fintype

/-- `ECGroup` (`harness.rs` lines 58-63). -/
inductive ECGroup where
  | secp256r1
  | x25519
deriving DecidableEq, Repr, Fintype

/-- `SigType` (`harness.rs` lines 65-71). -/
inductive SigType where
  | rsa2048
  | rsa4096
  | ec384
deriving DecidableEq, Repr, Fintype

/-- `CryptoConfig` (`harness.rs` lines 73-78). -/
structure CryptoConfig where
  cipher_suite : CipherSuite
  ec_group : ECGroup
  sig_type : SigType
deriving DecidableEq, Repr, Fintype

/-- The `TlsConnection` trait (`harness.rs` lines 90-151), bundled over an
abstract connection-state type `σ`.  Only the methods the verified claims need
are included.  `handshake` may return an error or panic, hence `RunResult`;
the introspection methods of the trait return plain values. -/
structure TlsConnection (σ : Type) where
  handshake : σ → RunResult BenchError σ
  handshake_completed : σ → Bool
  get_negotiated_cipher_suite : σ → CipherSuite
  negotiated_tls13 : σ → Bool
  clone_connected_buffer : σ → ConnectedBuffer

/-- `TlsConnPair` (`harness.rs` lines 153-156). -/
structure TlsConnPair (γ σ : Type) where
  client : γ
  server : σ
deriving DecidableEq, Repr

/-- `TlsConnPair::wrap` (`harness.rs` lines 166-172): asserts that the client's
connected buffer equals (by `PartialEq`, i.e. queue identity) the inverse of
the server's connected buffer, then stores both connections unchanged. -/
def TlsConnPair.wrap {γ σ : Type} (Bc : TlsConnection γ) (Bs : TlsConnection σ)
    (client : γ) (server : σ) : RunResult BenchError (TlsConnPair γ σ) :=
  if (Bc.clone_connected_buffer client).ptrEq
      (Bs.clone_connected_buffer server).inverse then
    .ok { client := client, server := server }
  else
    .panicked

/-- The loop body iteration of `TlsConnPair::handshake` (`harness.rs` lines
201-207): each round is one client step then one server step, with `?`
propagating a returned error (and a panic aborting everything). -/
def handshakeRounds {γ σ : Type} (Bc : TlsConnection γ) (Bs : TlsConnection σ) :
    Nat → TlsConnPair γ σ → RunResult BenchError (TlsConnPair γ σ)
  | 0, p => .ok p
  | n + 1, p =>
    match Bc.handshake p.client with
    | .ok c =>
      match Bs.handshake p.server with
      | .ok s => handshakeRounds Bc Bs n { client := c, server := s }
      | .err e => .err e
      | .panicked => .panicked
    | .err e => .err e
    | .panicked => .panicked

/-- `TlsConnPair::handshake` (`harness.rs` lines 201-207): `for _ in 0..2`
around one client step and one server step; no completion check afterwards. -/
def TlsConnPair.handshake {γ σ : Type} (Bc : TlsConnection γ)
    (Bs : TlsConnection σ) (p : TlsConnPair γ σ) :
    RunResult BenchError (TlsConnPair γ σ) :=
  handshakeRounds Bc Bs 2 p

/-- `TlsConnPair::handshake_completed` (`harness.rs` lines 210-212). -/
def TlsConnPair.handshake_completed {γ σ : Type} (Bc : TlsConnection γ)
    (Bs : TlsConnection σ) (p : TlsConnPair γ σ) : Bool :=
  Bc.handshake_completed p.client && Bs.handshake_completed p.server

/-- `TlsConnPair::get_negotiated_cipher_suite` (`harness.rs` lines 215-219):
asserts `handshake_completed`, asserts both sides agree, then returns the
client's value.  Failed assertions are Rust panics, hence `RunResult`. -/
def TlsConnPair.get_negotiated_cipher_suite {γ σ : Type} (Bc : TlsConnection γ)
    (Bs : TlsConnection σ) (p : TlsConnPair γ σ) :
    RunResult BenchError CipherSuite :=
  if ! TlsConnPair.handshake_completed Bc Bs p then
    .panicked
  else if ! (Bc.get_negotiated_cipher_suite p.client
      == Bs.get_negotiated_cipher_suite p.server) then
    .panicked
  else
    .ok (Bc.get_negotiated_cipher_suite p.client)

/-- `TlsConnPair::negotiated_tls13` (`harness.rs` lines 222-224): the source
returns `self.client.negotiated_tls13() && self.server.negotiated_tls13()`
directly; it contains no assertion and no panicking operation, so the model
always yields `ok` of that conjunction (`RunResult` is used so that absence of
panics is a statable property, uniformly with the cipher-suite accessor). -/
def TlsConnPair.negotiated_tls13 {γ σ : Type} (Bc : TlsConnection γ)
    (Bs : TlsConnection σ) (p : TlsConnPair γ σ) : RunResult BenchError Bool :=
  .ok (Bc.negotiated_tls13 p.client && Bs.negotiated_tls13 p.server)

/-- `PemType` (crate root, used by `s2n_tls.rs` lines 9 and 106-123): which
credential file the external credential collaborator reads. -/
inductive PemType where
  | caCert
  | serverCertChain
  | serverKey
  | clientCertChain
  | clientKey
deriving DecidableEq, Repr, Fintype

/-- `s2n_tls::enums::ClientAuthType` as used in `s2n_tls.rs` lines 100-103. -/
inductive ClientAuthType where
  | noneRequested
  | required
deriving DecidableEq, Repr, Fintype

/-- The observable effect of `S2NConnection::make_config` (`s2n_tls.rs` lines
84-130) on the built config: the chosen security-policy string, the client
auth type, which CA certificate was put in the trust store (with the
hostname expected by the verify-host callback), and which certificate chain
and key were loaded.  Credential bytes are abstracted to the
`(PemType, SigType)` key passed to `read_to_bytes`. -/
structure S2NConfigModel where
  security_policy : String
  client_auth_type : ClientAuthType
  trust : Option (PemType × SigType)
  verify_host_name : Option String
  cert_chain : Option (PemType × SigType)
  key : Option (PemType × SigType)
  mode : Mode
deriving DecidableEq, Repr

/-- `S2NConnection::make_config` (`s2n_tls.rs` lines 84-130). -/
def S2NConnection.make_config (mode : Mode) (crypto_config : CryptoConfig)
    (handshake_type : HandshakeType) : S2NConfigModel :=
  let security_policy :=
    match crypto_config.cipher_suite, crypto_config.ec_group with
    | .aes128GcmSha256, .secp256r1 => "20230317"
    | .aes256GcmSha384, .secp256r1 => "20190802"
    | .aes128GcmSha256, .x25519 => "default_tls13"
    | .aes256GcmSha384, .x25519 => "20190801"
  let client_auth_type :=
    match handshake_type with
    | .serverAuth => ClientAuthType.noneRequested
    | .mutualAuth => ClientAuthType.required
  -- add CA cert if needed (lines 106-112)
  let trust :=
    if handshake_type = .mutualAuth ∨ mode = .client then
      some (PemType.caCert, crypto_config.sig_type)
    else none
  let verify_host_name :=
    if handshake_type = .mutualAuth ∨ mode = .client then
      some "localhost"
    else none
  -- add auth certs if needed (lines 115-124)
  let certKey : Option ((PemType × SigType) × (PemType × SigType)) :=
    if mode = .server ∨ handshake_type = .mutualAuth then
      match mode with
      | .server => some ((PemType.serverCertChain, crypto_config.sig_type),
          (PemType.serverKey, crypto_config.sig_type))
      | .client => some ((PemType.clientCertChain, crypto_config.sig_type),
          (PemType.clientKey, crypto_config.sig_type))
    else none
  { security_policy := security_policy
    client_auth_type := client_auth_type
    trust := trust
    verify_host_name := verify_host_name
    cert_chain := certKey.map Prod.fst
    key := certKey.map Prod.snd
    mode := mode }

/-- What the s2n engine's `poll_negotiate` reports on one attempt
(`s2n-tls` returns `Poll<Result<...>>`: still pending, ready with success, or
ready with a negotiation error). -/
inductive NegotiateOutcome where
  | stillInProgress
  | complete
  | negotiationError
deriving DecidableEq, Repr

/-- `S2NConnection` state relevant to the handshake step (`s2n_tls.rs` lines
31-37): the engine (abstracted to what its next `poll_negotiate` reports) and
the `handshake_completed` flag. -/
structure S2NConnectionModel where
  negotiate : NegotiateOutcome
  handshake_completed : Bool
deriving DecidableEq, Repr

/-- `S2NConnection::handshake` (`s2n_tls.rs` lines 166-173):
`self.handshake_completed = self.connection.poll_negotiate().map(|r| r.unwrap()).is_ready(); Ok(())`.
`Pending` gives `is_ready() == false`; `Ready(Ok(_))` gives `true`;
`Ready(Err(_))` hits the `unwrap()` and panics. -/
def S2NConnectionModel.handshake (c : S2NConnectionModel) :
    RunResult BenchError S2NConnectionModel :=
  match c.negotiate with
  | .stillInProgress => .ok { c with handshake_completed := false }
  | .complete => .ok { c with handshake_completed := true }
  | .negotiationError => .panicked

/-- The OS errno values the adapter sets: only `EWOULDBLOCK`
(`s2n_tls.rs` line 69). -/
inductive Errno where
  | ewouldblock
deriving DecidableEq, Repr

/-- The `len as c_int` narrowing cast (`s2n_tls.rs` line 75, `Ok(len) =>
len as _` with return type `c_int`): a `usize` is truncated to its low 32
bits, which are reinterpreted as a signed 32-bit value, so counts of `2^31`
or more wrap to negative values. -/
def usizeToCInt (n : Nat) : Int :=
  if n % 2 ^ 32 < 2 ^ 31 then ((n % 2 ^ 32 : Nat) : Int)
  else ((n % 2 ^ 32 : Nat) : Int) - 2 ^ 32

/-- `S2NConnection::recv_cb` (`s2n_tls.rs` lines 62-77): flush the context
buffer, then read into the destination; on `WouldBlock` set errno to
`EWOULDBLOCK` and return `-1`; on a successful read return the byte count
cast to `c_int` (`len as _`, modelled by `usizeToCInt`).
Result: (heap after, C return value, errno set, bytes delivered).  The
transport's only error kind is `WouldBlock`, so the source's panic branch for
other errors is unreachable and has no model counterpart. -/
def S2NConnection.recv_cb (h : Heap) (context : ConnectedBuffer)
    (destLen : Nat) : Heap × Int × Option Errno × List Nat :=
  let flushed := ConnectedBuffer.flush h context
  match ConnectedBuffer.read flushed.fst context destLen with
  | (h2, .error .wouldBlock) => (h2, -1, some .ewouldblock, [])
  | (h2, .ok bytes) => (h2, usizeToCInt bytes.length, none, bytes)

/-- A trivial backend whose step always succeeds and whose completion flag is
always `false`; exhibits that the pair-level handshake performs no completion
check. -/
def stalledConn : TlsConnection Unit where
  handshake := fun _ => .ok ()
  handshake_completed := fun _ => false
  get_negotiated_cipher_suite := fun _ => .aes128GcmSha256
  negotiated_tls13 := fun _ => false
  clone_connected_buffer := fun _ => { recv := 0, send := 1 }

/-- A backend whose step always returns `Err(HandshakeFailed)`. -/
def failingConn : TlsConnection Unit where
  handshake := fun _ => .err .handshakeFailed
  handshake_completed := fun _ => false
  get_negotiated_cipher_suite := fun _ => .aes128GcmSha256
  negotiated_tls13 := fun _ => false
  clone_connected_buffer := fun _ => { recv := 0, send := 1 }

/-- A completed backend reporting TLS 1.3. -/
def doneTls13Conn : TlsConnection Unit where
  handshake := fun _ => .ok ()
  handshake_completed := fun _ => true
  get_negotiated_cipher_suite := fun _ => .aes128GcmSha256
  negotiated_tls13 := fun _ => true
  clone_connected_buffer := fun _ => { recv := 0, send := 1 }

/-- A completed backend reporting a non-TLS-1.3 version and the other cipher
suite; paired with `doneTls13Conn` it gives asymmetric introspection results. -/
def doneTls12Conn : TlsConnection Unit where
  handshake := fun _ => .ok ()
  handshake_completed := fun _ => true
  get_negotiated_cipher_suite := fun _ => .aes256GcmSha384
  negotiated_tls13 := fun _ => false
  clone_connected_buffer := fun _ => { recv := 1, send := 0 }

/-- A backend holding the transport endpoint `{recv := 1, send := 0}`, the
inverse of the endpoint held by `stalledConn` and `doneTls13Conn`. -/
def peerConn : TlsConnection Unit where
  handshake := fun _ => .ok ()
  handshake_completed := fun _ => true
  get_negotiated_cipher_suite := fun _ => .aes128GcmSha256
  negotiated_tls13 := fun _ => true
  clone_connected_buffer := fun _ => { recv := 1, send := 0 }

/-- A backend holding a transport endpoint from an unrelated, independently
created pipe (queues 2 and 3). -/
def strangerConn : TlsConnection Unit where
  handshake := fun _ => .ok ()
  handshake_completed := fun _ => true
  get_negotiated_cipher_suite := fun _ => .aes128GcmSha256
  negotiated_tls13 := fun _ => true
  clone_connected_buffer := fun _ => { recv := 2, send := 3 }

/-- A concrete heap: queue 0 holds three bytes, every other queue is empty. -/
def exampleHeap : Heap :=
  fun i => if i = 0 then [10, 20, 30] else []

/-- A heap whose queue 0 holds `2^31` bytes: enough queued data for the
receive callback's 32-bit signed return value to overflow. -/
def hugeHeap : Heap :=
  fun i => if i = 0 then List.replicate (2 ^ 31) 0 else []

theorem ConnectedBuffer.read_eq (h : Heap) (b : ConnectedBuffer)
    (destLen : Nat) :
    ConnectedBuffer.read h b destLen =
      if ((h b.recv).take destLen).length = 0 then
        (h, .error .wouldBlock)
      else
        (heapUpdate h b.recv ((h b.recv).drop destLen),
         .ok ((h b.recv).take destLen)) := rfl

theorem ConnectedBuffer.ptrEq_iff (a c : ConnectedBuffer) :
    a.ptrEq c = true ↔ a = c := by
  cases a
  cases c
  simp [ConnectedBuffer.ptrEq]

theorem ConnectedBuffer.eq_inverse_comm (a c : ConnectedBuffer) :
    a = c.inverse ↔ c = a.inverse := by
  cases a
  cases c
  simp only [ConnectedBuffer.inverse, ConnectedBuffer.mk.injEq]
  omega

/-- C6: applying `inverse` once swaps exactly the receive and send queue
references; applying it twice yields a handle equal (structurally, and under
the `PartialEq` queue-identity test) to the original; and the `PartialEq`
equality is precisely identity of both underlying queue references, with no
reference to queue contents. -/
theorem connectedBuffer_inverse_involution (b : ConnectedBuffer) :
    b.inverse.recv = b.send ∧ b.inverse.send = b.recv ∧
    b.inverse.inverse = b ∧ b.inverse.inverse.ptrEq b = true ∧
    (∀ a : ConnectedBuffer, a.ptrEq b = true ↔ a.recv = b.recv ∧ a.send = b.send) := by
  cases b
  refine ⟨rfl, rfl, rfl, ?_, ?_⟩ <;>
    simp [ConnectedBuffer.ptrEq, ConnectedBuffer.inverse]

/-- C6, witness at a concrete handle. -/
theorem connectedBuffer_inverse_involution_witness :
    ({ recv := 0, send := 1 } : ConnectedBuffer).inverse.inverse
      = { recv := 0, send := 1 } :=
  (connectedBuffer_inverse_involution { recv := 0, send := 1 }).2.2.1

/-- C4: reading from a handle whose receive queue is empty yields the
`WouldBlock` error; a successful read never delivers zero bytes; and with a
non-empty receive queue and non-empty destination the read succeeds with the
first `min destLen (queue length)` bytes (a positive count, at most the
destination length), which are popped from the queue. -/
theorem connectedBuffer_read_spec (h : Heap) (b : ConnectedBuffer)
    (destLen : Nat) :
    (h b.recv = [] →
      (ConnectedBuffer.read h b destLen).2 = .error .wouldBlock) ∧
    (∀ bs, (ConnectedBuffer.read h b destLen).2 = .ok bs → bs ≠ []) ∧
    (h b.recv ≠ [] → destLen ≠ 0 →
      (ConnectedBuffer.read h b destLen).2 = .ok ((h b.recv).take destLen) ∧
      ((h b.recv).take destLen).length = min destLen (h b.recv).length ∧
      0 < ((h b.recv).take destLen).length ∧
      ((h b.recv).take destLen).length ≤ destLen ∧
      (ConnectedBuffer.read h b destLen).1 b.recv = (h b.recv).drop destLen) := by
  refine ⟨?_, ?_, ?_⟩
  · intro he
    rw [ConnectedBuffer.read_eq, he]
    simp
  · intro bs hok
    rw [ConnectedBuffer.read_eq] at hok
    by_cases hbl : ((h b.recv).take destLen).length = 0
    · rw [if_pos hbl] at hok
      simp at hok
    · rw [if_neg hbl] at hok
      simp at hok
      subst hok
      exact fun hnil => hbl (by simp [hnil])
  · intro hne hd
    have hq : (h b.recv).length ≠ 0 := fun h0 => hne (List.length_eq_zero.mp h0)
    have hbl : ((h b.recv).take destLen).length ≠ 0 := by
      rw [List.length_take]
      omega
    refine ⟨?_, List.length_take destLen (h b.recv), Nat.pos_of_ne_zero hbl,
      ?_, ?_⟩
    · rw [ConnectedBuffer.read_eq, if_neg hbl]
    · rw [List.length_take]
      exact Nat.min_le_left destLen (h b.recv).length
    · rw [ConnectedBuffer.read_eq, if_neg hbl]
      simp [heapUpdate]

/-- C4, witness: an empty queue would-blocks; a three-byte queue read with a
two-byte destination delivers the first two bytes and leaves the third. -/
theorem connectedBuffer_read_spec_witness :
    (ConnectedBuffer.read exampleHeap { recv := 2, send := 3 } 4).2
      = .error .wouldBlock ∧
    (ConnectedBuffer.read exampleHeap { recv := 0, send := 1 } 2).2
      = .ok [10, 20] ∧
    (ConnectedBuffer.read exampleHeap { recv := 0, send := 1 } 2).1 0 = [30] :=
  ⟨(connectedBuffer_read_spec exampleHeap { recv := 2, send := 3 } 4).1
      (by decide),
   ((connectedBuffer_read_spec exampleHeap { recv := 0, send := 1 } 2).2.2
      (by decide) (by decide)).1,
   ((connectedBuffer_read_spec exampleHeap { recv := 0, send := 1 } 2).2.2
      (by decide) (by decide)).2.2.2.2⟩

/-- C10: reading into a zero-length destination always returns the
`WouldBlock` error with the heap (hence the receive queue) unchanged, exactly
as a read from an empty queue does — the two cases produce identical results,
so a caller cannot tell them apart from the read result. -/
theorem connectedBuffer_read_zero_dest (h : Heap) (b : ConnectedBuffer) :
    ConnectedBuffer.read h b 0 = (h, .error .wouldBlock) ∧
    (h b.recv = [] →
      ∀ destLen, ConnectedBuffer.read h b destLen = (h, .error .wouldBlock)) := by
  refine ⟨rfl, ?_⟩
  intro he destLen
  simp [ConnectedBuffer.read, he]

/-- C10, witness: zero-length destination on a non-empty queue, and a large
destination on an empty queue, give the same would-block result with the heap
untouched. -/
theorem connectedBuffer_read_zero_dest_witness :
    ConnectedBuffer.read exampleHeap { recv := 0, send := 1 } 0
      = (exampleHeap, .error .wouldBlock) ∧
    ConnectedBuffer.read exampleHeap { recv := 2, send := 3 } 5
      = (exampleHeap, .error .wouldBlock) :=
  ⟨(connectedBuffer_read_zero_dest exampleHeap { recv := 0, send := 1 }).1,
   (connectedBuffer_read_zero_dest exampleHeap { recv := 2, send := 3 }).2
      (by decide) 5⟩

/-- C9: `write` appends all of `src` to the send queue, touches no other
queue, and returns `Ok` with the full source length; `flush` returns `Ok` and
leaves the whole heap unchanged; and the appended bytes are then readable, in
order, through the inverse handle (whose receive queue is the writer's send
queue). -/
theorem connectedBuffer_write_flush_spec (h : Heap) (b : ConnectedBuffer)
    (src : List Nat) :
    ((ConnectedBuffer.write h b src).2 = .ok src.length) ∧
    ((ConnectedBuffer.write h b src).1 b.send = h b.send ++ src) ∧
    (∀ j, j ≠ b.send → (ConnectedBuffer.write h b src).1 j = h j) ∧
    (ConnectedBuffer.flush h b = (h, .ok ())) ∧
    (h b.send ++ src ≠ [] →
      ConnectedBuffer.read (ConnectedBuffer.write h b src).1 b.inverse
          (h b.send ++ src).length
        = (heapUpdate (ConnectedBuffer.write h b src).1 b.send [],
           .ok (h b.send ++ src))) := by
  refine ⟨rfl, ?_, ?_, rfl, ?_⟩
  · simp [ConnectedBuffer.write, heapUpdate]
  · intro j hj
    simp [ConnectedBuffer.write, heapUpdate, hj]
  · intro hne
    have hq : (ConnectedBuffer.write h b src).1 b.inverse.recv
        = h b.send ++ src := by
      simp [ConnectedBuffer.write, ConnectedBuffer.inverse, heapUpdate]
    have hbl : (((ConnectedBuffer.write h b src).1 b.inverse.recv).take
        (h b.send ++ src).length).length ≠ 0 := by
      rw [hq, List.take_length]
      exact fun h0 => hne (List.length_eq_zero.mp h0)
    simp only [ConnectedBuffer.read, hbl, if_neg, ite_false]
    rw [hq]
    simp [List.take_length, List.drop_length, ConnectedBuffer.inverse]

/-- C9, witness: writing `[7]` onto an empty send queue returns `Ok 1`,
leaves queue 0 untouched, and the byte is read back through the inverse
handle. -/
theorem connectedBuffer_write_flush_spec_witness :
    (ConnectedBuffer.write exampleHeap { recv := 0, send := 1 } [7]).2
      = .ok 1 ∧
    (ConnectedBuffer.write exampleHeap { recv := 0, send := 1 } [7]).1 0
      = [10, 20, 30] ∧
    ConnectedBuffer.read
        (ConnectedBuffer.write exampleHeap { recv := 0, send := 1 } [7]).1
        ({ recv := 0, send := 1 } : ConnectedBuffer).inverse 1
      = (heapUpdate
          (ConnectedBuffer.write exampleHeap { recv := 0, send := 1 } [7]).1
          1 [],
         .ok [7]) :=
  ⟨(connectedBuffer_write_flush_spec exampleHeap { recv := 0, send := 1 }
      [7]).1,
   (connectedBuffer_write_flush_spec exampleHeap { recv := 0, send := 1 }
      [7]).2.2.1 0 (by decide),
   (connectedBuffer_write_flush_spec exampleHeap { recv := 0, send := 1 }
      [7]).2.2.2.2 (by decide)⟩

/-- C1, counterexample: with a backend whose steps always succeed but whose
completion flag stays `false`, the pair handshake still returns success after
its two rounds even though neither side reports completion — the orchestrator
contains no completion assertion, contradicting "then asserts that both sides
report completion". -/
theorem tlsConnPair_handshake_no_completion_assert_cex :
    TlsConnPair.handshake stalledConn stalledConn
        { client := (), server := () }
      = .ok { client := (), server := () } ∧
    TlsConnPair.handshake_completed stalledConn stalledConn
        { client := (), server := () } = false := by
  constructor <;> rfl

/-- C1 (amended): the pair handshake performs exactly two rounds, each one
client step then one server step; a returned error from any of the four steps
is propagated as the overall result, and when all four steps succeed the
result is success with the twice-stepped pair — unconditionally, with no
completion check. -/
theorem tlsConnPair_handshake_two_rounds {γ σ : Type} (Bc : TlsConnection γ)
    (Bs : TlsConnection σ) (p : TlsConnPair γ σ) :
    (∀ e, Bc.handshake p.client = .err e →
      TlsConnPair.handshake Bc Bs p = .err e) ∧
    (∀ c1 e, Bc.handshake p.client = .ok c1 →
      Bs.handshake p.server = .err e →
      TlsConnPair.handshake Bc Bs p = .err e) ∧
    (∀ c1 s1 e, Bc.handshake p.client = .ok c1 →
      Bs.handshake p.server = .ok s1 → Bc.handshake c1 = .err e →
      TlsConnPair.handshake Bc Bs p = .err e) ∧
    (∀ c1 s1 c2 e, Bc.handshake p.client = .ok c1 →
      Bs.handshake p.server = .ok s1 → Bc.handshake c1 = .ok c2 →
      Bs.handshake s1 = .err e →
      TlsConnPair.handshake Bc Bs p = .err e) ∧
    (∀ c1 s1 c2 s2, Bc.handshake p.client = .ok c1 →
      Bs.handshake p.server = .ok s1 → Bc.handshake c1 = .ok c2 →
      Bs.handshake s1 = .ok s2 →
      TlsConnPair.handshake Bc Bs p = .ok { client := c2, server := s2 }) := by
  refine ⟨?_, ?_, ?_, ?_, ?_⟩
  · intro e h1
    simp [TlsConnPair.handshake, handshakeRounds, h1]
  · intro c1 e h1 h2
    simp [TlsConnPair.handshake, handshakeRounds, h1, h2]
  · intro c1 s1 e h1 h2 h3
    simp [TlsConnPair.handshake, handshakeRounds, h1, h2, h3]
  · intro c1 s1 c2 e h1 h2 h3 h4
    simp [TlsConnPair.handshake, handshakeRounds, h1, h2, h3, h4]
  · intro c1 s1 c2 s2 h1 h2 h3 h4
    simp [TlsConnPair.handshake, handshakeRounds, h1, h2, h3, h4]

/-- C1, witness: a backend returning `Err(HandshakeFailed)` makes the pair
handshake fail with that error; the always-succeeding incomplete backend makes
it succeed. -/
theorem tlsConnPair_handshake_two_rounds_witness :
    TlsConnPair.handshake failingConn stalledConn
        { client := (), server := () }
      = .err .handshakeFailed ∧
    TlsConnPair.handshake doneTls13Conn doneTls13Conn
        { client := (), server := () }
      = .ok { client := (), server := () } :=
  ⟨(tlsConnPair_handshake_two_rounds failingConn stalledConn
      { client := (), server := () }).1 .handshakeFailed rfl,
   (tlsConnPair_handshake_two_rounds doneTls13Conn doneTls13Conn
      { client := (), server := () }).2.2.2.2 () () () () rfl rfl rfl rfl⟩

/-- C2, counterexample: when the engine reports a negotiation error, the s2n
backend's handshake step panics (the `unwrap()` inside
`poll_negotiate().map(|r| r.unwrap())`) instead of returning a
`HandshakeFailed` error. -/
theorem s2n_handshake_error_panics_cex :
    S2NConnectionModel.handshake
        { negotiate := .negotiationError, handshake_completed := false }
      = .panicked ∧
    S2NConnectionModel.handshake
        { negotiate := .negotiationError, handshake_completed := false }
      ≠ .err .handshakeFailed := by
  constructor
  · rfl
  · decide

/-- C2 (amended): one s2n handshake step polls the engine's negotiate
operation; a still-in-progress report records completion `false` and returns
success, a completion report records `true` and returns success, and an
engine-level negotiation error makes the step panic (via `unwrap`), never
returning an `Err`. -/
theorem s2n_handshake_step_spec (c : S2NConnectionModel) :
    (c.negotiate = .stillInProgress →
      c.handshake = .ok { c with handshake_completed := false }) ∧
    (c.negotiate = .complete →
      c.handshake = .ok { c with handshake_completed := true }) ∧
    (c.negotiate = .negotiationError →
      c.handshake = .panicked ∧ ∀ e, c.handshake ≠ .err e) := by
  obtain ⟨n, f⟩ := c
  cases n <;> simp [S2NConnectionModel.handshake]

/-- C2, witness: a still-in-progress poll on a previously-completed connection
records completion `false` and succeeds; an engine error panics. -/
theorem s2n_handshake_step_spec_witness :
    S2NConnectionModel.handshake
        { negotiate := .stillInProgress, handshake_completed := true }
      = .ok { negotiate := .stillInProgress, handshake_completed := false } ∧
    S2NConnectionModel.handshake
        { negotiate := .complete, handshake_completed := false }
      = .ok { negotiate := .complete, handshake_completed := true } :=
  ⟨(s2n_handshake_step_spec
      { negotiate := .stillInProgress, handshake_completed := true }).1 rfl,
   (s2n_handshake_step_spec
      { negotiate := .complete, handshake_completed := false }).2.1 rfl⟩

/-- C3, counterexample: with a completed pair whose client reports TLS 1.3 and
whose server does not, the pair-level TLS-1.3 introspection returns the value
`false` and does not panic — it contains no equality assertion, contradicting
the claim that both introspections assert agreement. -/
theorem negotiated_tls13_no_assert_cex :
    doneTls13Conn.negotiated_tls13 () = true ∧
    doneTls12Conn.negotiated_tls13 () = false ∧
    TlsConnPair.handshake_completed doneTls13Conn doneTls12Conn
        { client := (), server := () } = true ∧
    TlsConnPair.negotiated_tls13 doneTls13Conn doneTls12Conn
        { client := (), server := () } = .ok false ∧
    TlsConnPair.negotiated_tls13 doneTls13Conn doneTls12Conn
        { client := (), server := () } ≠ .panicked := by
  refine ⟨rfl, rfl, rfl, rfl, ?_⟩
  decide

/-- C3 (amended): the pair-level cipher-suite introspection asserts (panics
unless) the handshake is complete and both sides agree, then reports the
client's value; the pair-level TLS-1.3 introspection never panics and reports
the conjunction of the two sides, so an asymmetric result is reported as
`false` rather than asserted. -/
theorem pair_introspection_spec {γ σ : Type} (Bc : TlsConnection γ)
    (Bs : TlsConnection σ) (p : TlsConnPair γ σ) :
    (TlsConnPair.handshake_completed Bc Bs p = false →
      TlsConnPair.get_negotiated_cipher_suite Bc Bs p = .panicked) ∧
    (TlsConnPair.handshake_completed Bc Bs p = true →
      Bc.get_negotiated_cipher_suite p.client
          ≠ Bs.get_negotiated_cipher_suite p.server →
      TlsConnPair.get_negotiated_cipher_suite Bc Bs p = .panicked) ∧
    (TlsConnPair.handshake_completed Bc Bs p = true →
      Bc.get_negotiated_cipher_suite p.client
          = Bs.get_negotiated_cipher_suite p.server →
      TlsConnPair.get_negotiated_cipher_suite Bc Bs p
        = .ok (Bc.get_negotiated_cipher_suite p.client)) ∧
    (Bc.negotiated_tls13 p.client ≠ Bs.negotiated_tls13 p.server →
      TlsConnPair.negotiated_tls13 Bc Bs p = .ok false) ∧
    (TlsConnPair.negotiated_tls13 Bc Bs p ≠ .panicked) := by
  refine ⟨?_, ?_, ?_, ?_, ?_⟩
  · intro hc
    simp [TlsConnPair.get_negotiated_cipher_suite, hc]
  · intro hc hne
    simp [TlsConnPair.get_negotiated_cipher_suite, hc, hne]
  · intro hc heq
    simp [TlsConnPair.get_negotiated_cipher_suite, hc, heq]
  · intro hne
    cases hcl : Bc.negotiated_tls13 p.client <;>
      cases hsr : Bs.negotiated_tls13 p.server <;>
      simp_all [TlsConnPair.negotiated_tls13]
  · simp [TlsConnPair.negotiated_tls13]

/-- C3, witness: a completed pair disagreeing on the cipher suite panics in
the cipher-suite introspection; an agreeing pair reports the shared suite;
the TLS-1.3-asymmetric pair returns `ok false`. -/
theorem pair_introspection_spec_witness :
    TlsConnPair.get_negotiated_cipher_suite doneTls13Conn doneTls12Conn
        { client := (), server := () } = .panicked ∧
    TlsConnPair.get_negotiated_cipher_suite doneTls13Conn peerConn
        { client := (), server := () } = .ok .aes128GcmSha256 ∧
    TlsConnPair.negotiated_tls13 doneTls13Conn doneTls12Conn
        { client := (), server := () } = .ok false :=
  ⟨(pair_introspection_spec doneTls13Conn doneTls12Conn
      { client := (), server := () }).2.1 rfl (by decide),
   (pair_introspection_spec doneTls13Conn peerConn
      { client := (), server := () }).2.2.1 rfl rfl,
   (pair_introspection_spec doneTls13Conn doneTls12Conn
      { client := (), server := () }).2.2.2.1 (by decide)⟩

/-- C5: constructing a pair from two connections succeeds with both
connections stored unchanged exactly when the client's transport handle is
the inverse of the server's (identity of the underlying queues); otherwise the
pairing assertion fails (panic).  Being "mutual" inverses is symmetric: the
client handle equals the inverse of the server handle iff the server handle
equals the inverse of the client handle. -/
theorem tlsConnPair_wrap_spec {γ σ : Type} (Bc : TlsConnection γ)
    (Bs : TlsConnection σ) (client : γ) (server : σ) :
    (Bc.clone_connected_buffer client
        = (Bs.clone_connected_buffer server).inverse →
      TlsConnPair.wrap Bc Bs client server
        = .ok { client := client, server := server }) ∧
    (Bc.clone_connected_buffer client
        ≠ (Bs.clone_connected_buffer server).inverse →
      TlsConnPair.wrap Bc Bs client server = .panicked) ∧
    (Bc.clone_connected_buffer client
        = (Bs.clone_connected_buffer server).inverse ↔
      Bs.clone_connected_buffer server
        = (Bc.clone_connected_buffer client).inverse) := by
  refine ⟨?_, ?_, ?_⟩
  · intro heq
    rw [TlsConnPair.wrap, if_pos ((ConnectedBuffer.ptrEq_iff _ _).mpr heq)]
  · intro hne
    rw [TlsConnPair.wrap, if_neg]
    intro heq
    exact hne ((ConnectedBuffer.ptrEq_iff _ _).mp heq)
  · exact ConnectedBuffer.eq_inverse_comm _ _

/-- C5, witness: matched handles (queues 0/1 against 1/0) wrap successfully;
handles from unrelated pipes fail the pairing assertion. -/
theorem tlsConnPair_wrap_spec_witness :
    TlsConnPair.wrap stalledConn peerConn () ()
      = .ok { client := (), server := () } ∧
    TlsConnPair.wrap stalledConn strangerConn () () = .panicked :=
  ⟨(tlsConnPair_wrap_spec stalledConn peerConn () ()).1 (by decide),
   (tlsConnPair_wrap_spec stalledConn strangerConn () ()).2.1 (by decide)⟩

/-- C7: `make_config` loads the CA certificate into the trust store together
with the localhost hostname-verification callback exactly when the role is
client or mutual authentication is requested, and loads a certificate chain
and key exactly when the role is server or mutual authentication is
requested — the server files for the server role and the client files for the
client role, always keyed by the configured signature type. -/
theorem s2n_make_config_material (mode : Mode) (cc : CryptoConfig)
    (hs : HandshakeType) :
    ((mode = .client ∨ hs = .mutualAuth) →
      (S2NConnection.make_config mode cc hs).trust
          = some (PemType.caCert, cc.sig_type) ∧
      (S2NConnection.make_config mode cc hs).verify_host_name
          = some "localhost") ∧
    (¬(mode = .client ∨ hs = .mutualAuth) →
      (S2NConnection.make_config mode cc hs).trust = none ∧
      (S2NConnection.make_config mode cc hs).verify_host_name = none) ∧
    (mode = .server →
      (S2NConnection.make_config mode cc hs).cert_chain
          = some (PemType.serverCertChain, cc.sig_type) ∧
      (S2NConnection.make_config mode cc hs).key
          = some (PemType.serverKey, cc.sig_type)) ∧
    (mode = .client → hs = .mutualAuth →
      (S2NConnection.make_config mode cc hs).cert_chain
          = some (PemType.clientCertChain, cc.sig_type) ∧
      (S2NConnection.make_config mode cc hs).key
          = some (PemType.clientKey, cc.sig_type)) ∧
    (¬(mode = .server ∨ hs = .mutualAuth) →
      (S2NConnection.make_config mode cc hs).cert_chain = none ∧
      (S2NConnection.make_config mode cc hs).key = none) := by
  cases mode <;> cases hs <;>
    simp [S2NConnection.make_config]

/-- C7, witness: a server-auth-only server presents the server chain and key
and loads no trust material; a mutual-auth client presents the client chain
and key; a server-auth-only client loads the CA certificate. -/
theorem s2n_make_config_material_witness :
    (S2NConnection.make_config .server
        { cipher_suite := .aes128GcmSha256, ec_group := .x25519,
          sig_type := .ec384 } .serverAuth).cert_chain
      = some (PemType.serverCertChain, .ec384) ∧
    (S2NConnection.make_config .server
        { cipher_suite := .aes128GcmSha256, ec_group := .x25519,
          sig_type := .ec384 } .serverAuth).trust = none ∧
    (S2NConnection.make_config .client
        { cipher_suite := .aes256GcmSha384, ec_group := .secp256r1,
          sig_type := .rsa2048 } .mutualAuth).cert_chain
      = some (PemType.clientCertChain, .rsa2048) ∧
    (S2NConnection.make_config .client
        { cipher_suite := .aes128GcmSha256, ec_group := .x25519,
          sig_type := .ec384 } .serverAuth).trust
      = some (PemType.caCert, .ec384) :=
  ⟨(s2n_make_config_material .server
      { cipher_suite := .aes128GcmSha256, ec_group := .x25519,
        sig_type := .ec384 } .serverAuth).2.2.1 rfl |>.1,
   (s2n_make_config_material .server
      { cipher_suite := .aes128GcmSha256, ec_group := .x25519,
        sig_type := .ec384 } .serverAuth).2.1 (by decide) |>.1,
   (s2n_make_config_material .client
      { cipher_suite := .aes256GcmSha384, ec_group := .secp256r1,
        sig_type := .rsa2048 } .mutualAuth).2.2.2.1 rfl rfl |>.1,
   (s2n_make_config_material .client
      { cipher_suite := .aes128GcmSha256, ec_group := .x25519,
        sig_type := .ec384 } .serverAuth).1 (Or.inl rfl) |>.1⟩

theorem usizeToCInt_eq_of_lt {n : Nat} (hn : n < 2 ^ 31) :
    usizeToCInt n = n := by
  have h32 : n < 2 ^ 32 := lt_trans hn (by norm_num)
  rw [usizeToCInt, Nat.mod_eq_of_lt h32, if_pos hn]

theorem recv_cb_of_read_ok (h h2 : Heap) (context : ConnectedBuffer)
    (destLen : Nat) (bytes : List Nat)
    (hr : ConnectedBuffer.read h context destLen = (h2, .ok bytes)) :
    S2NConnection.recv_cb h context destLen
      = (h2, usizeToCInt bytes.length, none, bytes) := by
  simp only [S2NConnection.recv_cb, ConnectedBuffer.flush]
  rw [hr]

/-- C8, counterexample: on a successful read of `2^31` bytes the receive
callback returns the wrapped 32-bit value `-(2^31)` — not the number of bytes
read, which is `2^31` — because of the narrowing `len as c_int` cast at
`s2n_tls.rs` line 75; errno stays unset, so this is the success path. -/
theorem s2n_recv_cb_wrap_cex :
    S2NConnection.recv_cb hugeHeap { recv := 0, send := 1 } (2 ^ 31)
      = (heapUpdate hugeHeap 0 [], -(2 ^ 31), none,
         List.replicate (2 ^ 31) 0) ∧
    (List.replicate (2 ^ 31) (0 : Nat)).length = 2 ^ 31 ∧
    -(2 ^ 31 : Int) ≠ ((List.replicate (2 ^ 31) (0 : Nat)).length : Int) := by
  have hlen : (List.replicate (2 ^ 31) (0 : Nat)).length = 2 ^ 31 :=
    List.length_replicate _ _
  have htake : (List.replicate (2 ^ 31) (0 : Nat)).take (2 ^ 31)
      = List.replicate (2 ^ 31) 0 :=
    List.take_of_length_le (by rw [hlen])
  have hdrop : (List.replicate (2 ^ 31) (0 : Nat)).drop (2 ^ 31) = [] :=
    List.drop_eq_nil_of_le (by rw [hlen])
  have hhq : hugeHeap (({ recv := 0, send := 1 } : ConnectedBuffer).recv)
      = List.replicate (2 ^ 31) 0 := rfl
  have hread : ConnectedBuffer.read hugeHeap { recv := 0, send := 1 } (2 ^ 31)
      = (heapUpdate hugeHeap 0 [], .ok (List.replicate (2 ^ 31) 0)) := by
    rw [ConnectedBuffer.read_eq, hhq, htake, hdrop, hlen,
      if_neg (by norm_num)]
  have hcb : S2NConnection.recv_cb hugeHeap { recv := 0, send := 1 } (2 ^ 31)
      = (heapUpdate hugeHeap 0 [],
         usizeToCInt (List.replicate (2 ^ 31) (0 : Nat)).length, none,
         List.replicate (2 ^ 31) 0) :=
    recv_cb_of_read_ok hugeHeap (heapUpdate hugeHeap 0 [])
      { recv := 0, send := 1 } (2 ^ 31) (List.replicate (2 ^ 31) 0) hread
  refine ⟨?_, hlen, by rw [hlen]; norm_num⟩
  rw [hcb, hlen]
  norm_num [usizeToCInt]

/-- C8 (amended): the receive callback first performs the (no-op,
always-successful) flush of the context buffer and then reads; when the
transport read reports would-block the callback returns `-1` with errno set
to `EWOULDBLOCK` and delivers no bytes; when the read succeeds it returns the
byte count converted by the narrowing `len as c_int` cast — equal to the
number of bytes read whenever that number is below `2^31` — with errno
untouched. -/
theorem s2n_recv_cb_spec (h : Heap) (context : ConnectedBuffer)
    (destLen : Nat) :
    (ConnectedBuffer.flush h context = (h, .ok ())) ∧
    ((ConnectedBuffer.read h context destLen).2 = .error .wouldBlock →
      S2NConnection.recv_cb h context destLen
        = (h, -1, some .ewouldblock, [])) ∧
    (∀ h2 bytes, ConnectedBuffer.read h context destLen = (h2, .ok bytes) →
      S2NConnection.recv_cb h context destLen
        = (h2, usizeToCInt bytes.length, none, bytes) ∧
      (bytes.length < 2 ^ 31 →
        S2NConnection.recv_cb h context destLen
          = (h2, (bytes.length : Int), none, bytes))) := by
  refine ⟨rfl, ?_, ?_⟩
  · intro herr
    rw [ConnectedBuffer.read_eq] at herr
    by_cases hbl : ((h context.recv).take destLen).length = 0
    · simp only [S2NConnection.recv_cb, ConnectedBuffer.flush,
        ConnectedBuffer.read_eq, if_pos hbl]
    · rw [if_neg hbl] at herr
      simp at herr
  · intro h2 bytes hok
    rw [ConnectedBuffer.read_eq] at hok
    by_cases hbl : ((h context.recv).take destLen).length = 0
    · rw [if_pos hbl] at hok
      simp [Prod.ext_iff] at hok
    · rw [if_neg hbl] at hok
      simp [Prod.ext_iff] at hok
      obtain ⟨hh, hb⟩ := hok
      subst hh
      subst hb
      have h1 : S2NConnection.recv_cb h context destLen
          = (heapUpdate h context.recv ((h context.recv).drop destLen),
             usizeToCInt ((h context.recv).take destLen).length, none,
             (h context.recv).take destLen) := by
        simp only [S2NConnection.recv_cb, ConnectedBuffer.flush,
          ConnectedBuffer.read_eq, if_neg hbl]
      exact ⟨h1, fun hsmall => by rw [h1, usizeToCInt_eq_of_lt hsmall]⟩

/-- C8, witness: reading two bytes from a three-byte queue returns 2 (a count
below `2^31`, where the cast is the identity) with no errno; reading from an
empty queue returns `-1` with `EWOULDBLOCK` set. -/
theorem s2n_recv_cb_spec_witness :
    S2NConnection.recv_cb exampleHeap { recv := 0, send := 1 } 2
      = (heapUpdate exampleHeap 0 [30], 2, none, [10, 20]) ∧
    S2NConnection.recv_cb exampleHeap { recv := 2, send := 3 } 4
      = (exampleHeap, -1, some .ewouldblock, []) :=
  ⟨((s2n_recv_cb_spec exampleHeap { recv := 0, send := 1 } 2).2.2
      (heapUpdate exampleHeap 0 [30]) [10, 20] rfl).2 (by norm_num),
   (s2n_recv_cb_spec exampleHeap { recv := 2, send := 3 } 4).2.1 rfl⟩
